import Mathlib

/-!
Shallow embedding of `zerver/lib/create_user.py` and the parts of its
environment that it uses, together with theorems about the behaviour of
`random_api_key`, `copy_user_settings`, `create_user_profile` and
`create_user`.

Modelling conventions:
* Machine state that the Python code threads implicitly (the database, the
  clock, the randomness source) is passed explicitly.  `now` is the value of
  `timezone_now()` at the start of a call; `r1`, `r2` are the two bytes drawn
  by `os.urandom(1)` inside `random_api_key`, and `randBytes` are the 24 bytes
  drawn by `os.urandom(24)`.
* The model classes `UserProfile`, `Recipient`, `Subscription`, `Realm` and
  `Stream` live in `zerver/models.py`, which is not part of the sources; they
  are modelled from the spec where noted.  A profile's dynamically named
  preference/notification attributes (the members of
  `UserProfile.property_types` and `UserProfile.notification_setting_types`,
  accessed by `getattr`/`setattr`) are modelled as a map
  `settings : String → SettingValue`; the attributes that this file assigns
  directly are ordinary record fields.
* Django's ORM is modelled by a `DB` record; `save` and `objects.create`
  append rows and allocate fresh ids from counters.
-/

namespace CreateUser

/-- Values stored in the dynamically named preference/notification
attributes of a profile. -/
inductive SettingValue where
  | b : Bool → SettingValue
  | i : Int → SettingValue
  | s : String → SettingValue
deriving DecidableEq

/-- Modelled from the spec: the ORM default of the
`default_all_public_streams` column of `UserProfile` (defined in
`zerver/models.py`, which is not under the sources); `create_user` leaves the
field alone when its argument is `None` "so the ORM default applies". -/
def default_all_public_streams_orm_default : Bool := false

/-- Modelled from the spec: a `Realm` is the tenant owning users; this file
reads only its `default_language` and `default_twenty_four_hour_time`. -/
structure Realm where
  id : Nat
  default_language : String := "en"
  default_twenty_four_hour_time : Bool := false

/-- Modelled from the spec: the `UserProfile` model of `zerver/models.py`
(not under the sources), restricted to the attributes this file reads or
writes.  Field default values model the ORM column defaults used when the
constructor is not given the field.  Foreign keys (`realm`, `bot_owner`,
the default streams) are modelled by ids.  `id` is `none` until the row is
saved.  `password = none` models Django's unusable password. -/
structure UserProfile where
  email : String := ""
  is_staff : Bool := false
  is_active : Bool := true
  full_name : String := ""
  short_name : String := ""
  last_login : Nat := 0
  date_joined : Nat := 0
  realm : Nat := 0
  pointer : Int := -1
  is_bot : Bool := false
  bot_type : Option Int := none
  bot_owner : Option Nat := none
  is_mirror_dummy : Bool := false
  tos_version : Option String := none
  timezone : Option String := some ""
  tutorial_status : Option String := some "W"
  enter_sends : Bool := false
  onboarding_steps : String := "[]"
  default_language : String := "en"
  twenty_four_hour_time : Bool := false
  password : Option String := none
  api_key : String := ""
  is_realm_admin : Bool := false
  avatar_source : String := "G"
  default_sending_stream : Option Nat := none
  default_events_register_stream : Option Nat := none
  default_all_public_streams : Bool := default_all_public_streams_orm_default
  settings : String → SettingValue := fun _ => SettingValue.b false
  id : Option Nat := none

/-- Modelled from the spec: `UserProfile.TUTORIAL_WAITING` of
`zerver/models.py` (the value is an opaque tag). -/
def UserProfile.TUTORIAL_WAITING : String := "W"

/-- Modelled from the spec: `UserProfile.AVATAR_FROM_GRAVATAR` of
`zerver/models.py` (the value is an opaque tag). -/
def UserProfile.AVATAR_FROM_GRAVATAR : String := "G"

/-- Python truthiness of an `Optional[int]`: `bool(None)` and `bool(0)` are
false, every other value is true. -/
def pyBool : Option Int → Bool
  | none => false
  | some n => n != 0

/-- Modelled from the spec: the framework-supplied password hash (its
internals are outside this file); it is injective on raw passwords, which is
all the claims need. -/
def hashPassword (raw : String) : String := String.append "pbkdf2:" raw

/-- Modelled from the spec: Django's `set_password`; called with a raw
password it stores its hash, called with `None` it makes the password
unusable (modelled by `none`). -/
def UserProfile.set_password (u : UserProfile) (raw : Option String) : UserProfile :=
  { u with password := raw.map hashPassword }

/-- Split a character list at the first occurrence of `sep`, returning the
parts before and after it, or `none` when `sep` does not occur. -/
def breakAtFirst (sep : Char) : List Char → Option (List Char × List Char)
  | [] => none
  | c :: cs =>
    if c = sep then some ([], cs)
    else (breakAtFirst sep cs).map fun p => (c :: p.1, p.2)

/-- Modelled from the spec: Django's `UserManager.normalize_email` strips the
address and lower-cases the domain part (the substring after the last `@`);
an address without `@` is only stripped.  ASCII lower-casing models Python's
`str.lower` on the addresses of interest. -/
def normalize_email (email : String) : String :=
  let t := email.trim
  match breakAtFirst '@' t.data.reverse with
  | none => t
  | some p => String.mk (p.2.reverse ++ '@' :: p.1.reverse.map Char.toLower)

/-- Modelled from the spec: `ujson.dumps([])`, the JSON serialization of the
empty list. -/
def ujson_dumps_empty : String := "[]"

/-- The 26 upper-case letters, positions 0–25 of the standard base64
alphabet. -/
def b64upper : List Char := "ABCDEFGHIJKLMNOPQRSTUVWXYZ".data

/-- The 26 lower-case letters, positions 26–51 of the standard base64
alphabet. -/
def b64lower : List Char := "abcdefghijklmnopqrstuvwxyz".data

/-- The 10 digits, positions 52–61 of the standard base64 alphabet. -/
def b64digits : List Char := "0123456789".data

/-- Python's `string.ascii_letters`: lower-case then upper-case letters. -/
def ascii_letters : List Char := b64lower ++ b64upper

/-- Python's `string.digits`. -/
def ascii_digits : List Char := b64digits

/-- The base64 alphabet with the two alternate characters substituted for
`+` and `/`, as used by `base64.b64encode(..., altchars=...)`. -/
def b64alphabet (alt1 alt2 : Char) : List Char :=
  b64upper ++ b64lower ++ b64digits ++ [alt1, alt2]

/-- Modelled from the spec: the character stream produced by Python's
`base64.b64encode` over the given alphabet — each group of three bytes
becomes four alphabet characters; a final group of one or two bytes is
padded with `=`. -/
def b64encodeChars (alpha : List Char) : List Nat → List Char
  | [] => []
  | [a] => [alpha.getD (a / 4) 'A', alpha.getD (a % 4 * 16) 'A', '=', '=']
  | [a, b] => [alpha.getD (a / 4) 'A', alpha.getD (a % 4 * 16 + b / 16) 'A',
               alpha.getD (b % 16 * 4) 'A', '=']
  | a :: b :: c :: rest =>
      alpha.getD (a / 4) 'A' :: alpha.getD (a % 4 * 16 + b / 16) 'A' ::
      alpha.getD (b % 16 * 4 + c / 64) 'A' :: alpha.getD (c % 64) 'A' ::
      b64encodeChars alpha rest

/-- Modelled from the spec: Python's `base64.b64encode(bytes, altchars)`. -/
def b64encode (bytes : List Nat) (alt1 alt2 : Char) : String :=
  String.mk (b64encodeChars (b64alphabet alt1 alt2) bytes)

/-- `random_api_key` from `zerver/lib/create_user.py`.  `r1` and `r2` are the
two bytes drawn by `ord(os.urandom(1))`, `randBytes` the 24 bytes drawn by
`os.urandom(24)`. -/
def random_api_key (r1 r2 : Nat) (randBytes : List Nat) : String :=
  let choices := ascii_letters ++ ascii_digits
  b64encode randBytes (choices.getD (r1 % 62) 'a') (choices.getD (r2 % 62) 'a')

/-- Modelled from the spec: `UserProfile.property_types` is defined in
`zerver/models.py`, which is not under the sources; the spec describes it
only as "a fixed enumerated set of preference fields".  Modelled as a fixed
list of setting names, disjoint from the attributes this file assigns
directly (which are record fields of `UserProfile` here). -/
def UserProfile.property_types : List String :=
  ["left_side_userlist", "emojiset", "high_contrast_mode", "night_mode",
   "translate_emoticons"]

/-- Modelled from the spec: `UserProfile.notification_setting_types` of
`zerver/models.py`, modelled like `UserProfile.property_types`. -/
def UserProfile.notification_setting_types : List String :=
  ["enable_desktop_notifications", "enable_sounds",
   "enable_offline_email_notifications", "enable_offline_push_notifications",
   "enable_online_push_notifications", "enable_digest_emails"]

/-- Python's `setattr(u, n, v)` on a dynamically named setting attribute. -/
def UserProfile.setSetting (u : UserProfile) (n : String) (v : SettingValue) : UserProfile :=
  { u with settings := fun m => if m = n then v else u.settings m }

/-- One `for settings_name in ...` loop of `copy_user_settings`: for each
name in `names`, `getattr` the value from `source` and `setattr` it on the
target. -/
def copySettingsFold (source : UserProfile) (names : List String) (t : UserProfile) : UserProfile :=
  names.foldl (fun acc n => acc.setSetting n (source.settings n)) t

/-- `copy_user_settings` from `zerver/lib/create_user.py`.  The Python
function mutates `target_profile` in place and returns `None`; the embedding
returns the mutated target.  It performs no database operation (its type
involves no `DB`). -/
def copy_user_settings (source_profile target_profile : UserProfile) : UserProfile :=
  let t1 := copySettingsFold source_profile UserProfile.property_types target_profile
  let t2 := copySettingsFold source_profile UserProfile.notification_setting_types t1
  { t2 with full_name := source_profile.full_name }

/-- All fields of a `UserProfile` except `full_name` and the dynamic
`settings` map, used to state frame conditions of `copy_user_settings`. -/
structure FrameFields where
  email : String
  is_staff : Bool
  is_active : Bool
  short_name : String
  last_login : Nat
  date_joined : Nat
  realm : Nat
  pointer : Int
  is_bot : Bool
  bot_type : Option Int
  bot_owner : Option Nat
  is_mirror_dummy : Bool
  tos_version : Option String
  timezone : Option String
  tutorial_status : Option String
  enter_sends : Bool
  onboarding_steps : String
  default_language : String
  twenty_four_hour_time : Bool
  password : Option String
  api_key : String
  is_realm_admin : Bool
  avatar_source : String
  default_sending_stream : Option Nat
  default_events_register_stream : Option Nat
  default_all_public_streams : Bool
  id : Option Nat

/-- The projection of a profile onto every field other than `full_name` and
the dynamic `settings` map. -/
def UserProfile.frame (u : UserProfile) : FrameFields :=
  { email := u.email, is_staff := u.is_staff, is_active := u.is_active,
    short_name := u.short_name, last_login := u.last_login,
    date_joined := u.date_joined, realm := u.realm, pointer := u.pointer,
    is_bot := u.is_bot, bot_type := u.bot_type, bot_owner := u.bot_owner,
    is_mirror_dummy := u.is_mirror_dummy, tos_version := u.tos_version,
    timezone := u.timezone, tutorial_status := u.tutorial_status,
    enter_sends := u.enter_sends, onboarding_steps := u.onboarding_steps,
    default_language := u.default_language,
    twenty_four_hour_time := u.twenty_four_hour_time, password := u.password,
    api_key := u.api_key, is_realm_admin := u.is_realm_admin,
    avatar_source := u.avatar_source,
    default_sending_stream := u.default_sending_stream,
    default_events_register_stream := u.default_events_register_stream,
    default_all_public_streams := u.default_all_public_streams, id := u.id }

/-- `create_user_profile` from `zerver/lib/create_user.py`.  `now` is
`timezone_now()`; `r1`, `r2`, `randBytes` are the random bytes consumed by
`random_api_key`.  The function builds the profile in memory and performs no
database operation (its type involves no `DB`). -/
def create_user_profile (now r1 r2 : Nat) (randBytes : List Nat) (realm : Realm)
    (email : String) (password : Option String) (active : Bool)
    (bot_type : Option Int) (full_name : String) (short_name : String)
    (bot_owner : Option Nat) (is_mirror_dummy : Bool)
    (tos_version : Option String) (timezone : Option String)
    (tutorial_status : Option String) (enter_sends : Bool) : UserProfile :=
  let email := normalize_email email
  let user_profile : UserProfile :=
    { email := email, is_staff := false, is_active := active,
      full_name := full_name, short_name := short_name,
      last_login := now, date_joined := now, realm := realm.id,
      pointer := -1, is_bot := pyBool bot_type, bot_type := bot_type,
      bot_owner := bot_owner, is_mirror_dummy := is_mirror_dummy,
      tos_version := tos_version, timezone := timezone,
      tutorial_status := tutorial_status, enter_sends := enter_sends,
      onboarding_steps := ujson_dumps_empty,
      default_language := realm.default_language,
      twenty_four_hour_time := realm.default_twenty_four_hour_time }
  let password := if pyBool bot_type || !active then none else password
  let user_profile := user_profile.set_password password
  { user_profile with api_key := random_api_key r1 r2 randBytes }

/-- Modelled from the spec: a `Recipient` row (`zerver/models.py`), an
addressable messaging target; `type_id` points at the profile when `type` is
personal. -/
structure Recipient where
  id : Nat
  type_id : Nat
  type : Nat

/-- Modelled from the spec: `Recipient.PERSONAL` of `zerver/models.py` (the
numeric tag of personal recipients). -/
def Recipient.PERSONAL : Nat := 1

/-- Modelled from the spec: a `Subscription` row (`zerver/models.py`)
linking a profile to a recipient. -/
structure Subscription where
  user_profile_id : Nat
  recipient_id : Nat

/-- Modelled from the spec: the relational store behind the Django ORM,
restricted to the tables this file touches.  Fresh ids come from the
counters. -/
structure DB where
  nextProfileId : Nat := 0
  nextRecipientId : Nat := 0
  profiles : List (Nat × UserProfile) := []
  recipients : List Recipient := []
  subscriptions : List Subscription := []

/-- The empty database. -/
def DB.empty : DB := {}

/-- Modelled from the spec: `user_profile.save()` — assigns a fresh id to the
profile and appends the row; returns the saved object (as Python's `save`
leaves it in the variable) and the new store. -/
def DB.saveProfile (db : DB) (u : UserProfile) : UserProfile × DB :=
  let i := db.nextProfileId
  let saved := { u with id := some i }
  (saved, { db with nextProfileId := i + 1, profiles := db.profiles ++ [(i, saved)] })

/-- Modelled from the spec: `Recipient.objects.create(type_id=..., type=...)`
— inserts a recipient row with a fresh id and returns it. -/
def DB.createRecipient (db : DB) (type_id ty : Nat) : Recipient × DB :=
  let r : Recipient := { id := db.nextRecipientId, type_id := type_id, type := ty }
  (r, { db with nextRecipientId := db.nextRecipientId + 1,
                recipients := db.recipients ++ [r] })

/-- Modelled from the spec:
`Subscription.objects.create(user_profile=..., recipient=...)`. -/
def DB.createSubscription (db : DB) (user_profile_id recipient_id : Nat) : DB :=
  { db with subscriptions :=
      db.subscriptions ++ [{ user_profile_id := user_profile_id, recipient_id := recipient_id }] }

/-- The keyword arguments of `create_user`, with the Python defaults. -/
structure CreateUserArgs where
  email : String
  password : Option String
  realm : Realm
  full_name : String
  short_name : String
  active : Bool := true
  is_realm_admin : Bool := false
  bot_type : Option Int := none
  bot_owner : Option Nat := none
  tos_version : Option String := none
  timezone : String := ""
  avatar_source : String := UserProfile.AVATAR_FROM_GRAVATAR
  is_mirror_dummy : Bool := false
  default_sending_stream : Option Nat := none
  default_events_register_stream : Option Nat := none
  default_all_public_streams : Option Bool := none
  source_profile : Option UserProfile := none

/-- The in-memory part of `create_user`: everything before
`user_profile.save()` — the call to `create_user_profile`, the direct field
assignments, the conditional `default_all_public_streams` assignment, and the
optional `copy_user_settings` overlay. -/
def create_user_prepared (a : CreateUserArgs) (now r1 r2 : Nat) (bytes : List Nat) : UserProfile :=
  let user_profile := create_user_profile now r1 r2 bytes a.realm a.email
    a.password a.active a.bot_type a.full_name a.short_name a.bot_owner
    a.is_mirror_dummy a.tos_version (some a.timezone)
    (some UserProfile.TUTORIAL_WAITING) false
  let user_profile := { user_profile with
    is_realm_admin := a.is_realm_admin,
    avatar_source := a.avatar_source,
    timezone := some a.timezone,
    default_sending_stream := a.default_sending_stream,
    default_events_register_stream := a.default_events_register_stream }
  let user_profile :=
    match a.default_all_public_streams with
    | none => user_profile
    | some b => { user_profile with default_all_public_streams := b }
  match a.source_profile with
  | none => user_profile
  | some s => copy_user_settings s user_profile

/-- `create_user` from `zerver/lib/create_user.py`: prepare the profile, save
it, create its personal `Recipient`, create the `Subscription`, and return
the saved profile together with the new store. -/
def create_user (a : CreateUserArgs) (now r1 r2 : Nat) (bytes : List Nat) (db : DB) :
    UserProfile × DB :=
  let u := create_user_prepared a now r1 r2 bytes
  let sv := db.saveProfile u
  let rc := sv.2.createRecipient (sv.1.id.getD 0) Recipient.PERSONAL
  let db3 := rc.2.createSubscription (sv.1.id.getD 0) rc.1.id
  (sv.1, db3)

/-- `create_user` with injected persistence failures, embedding the fact
that the Python code runs its three persistence operations in sequence with
no surrounding transaction and no exception handling: when
`Recipient.objects.create` (resp. `Subscription.objects.create`) raises, the
exception propagates and the database is left in the state reached so far,
carried by the `error` result. -/
def create_user_run (failRecipient failSubscription : Bool) (a : CreateUserArgs)
    (now r1 r2 : Nat) (bytes : List Nat) (db : DB) : Except DB (UserProfile × DB) :=
  let u := create_user_prepared a now r1 r2 bytes
  let sv := db.saveProfile u
  if failRecipient then Except.error sv.2 else
  let rc := sv.2.createRecipient (sv.1.id.getD 0) Recipient.PERSONAL
  if failSubscription then Except.error rc.2 else
  Except.ok (sv.1, rc.2.createSubscription (sv.1.id.getD 0) rc.1.id)

/-- Database sanity: every personal recipient and every subscription refers
to an already-allocated profile id. -/
def DB.wf (db : DB) : Prop :=
  (∀ r ∈ db.recipients, r.type = Recipient.PERSONAL → r.type_id < db.nextProfileId) ∧
  (∀ s ∈ db.subscriptions, s.user_profile_id < db.nextProfileId)

/-- The profiles recorded in the state carried by a failed run, and `[]` for
a successful one. -/
def failedStateProfiles (r : Except DB (UserProfile × DB)) : List (Nat × UserProfile) :=
  match r with
  | Except.error d => d.profiles
  | Except.ok _ => []

/-- A sample realm for concrete witnesses. -/
def sampleRealm : Realm := { id := 7, default_language := "en", default_twenty_four_hour_time := false }

/-- 24 concrete random bytes. -/
def bytes24 : List Nat := List.replicate 24 65

/-- A sample email address with an upper-case domain. -/
def emailAlice : String := "Alice@EXAMPLE.com"

/-- A sample raw password. -/
def pwSecret : String := "s3cret"

/-- The full name passed directly to `create_user` in the samples. -/
def nameTarget : String := "Target Person"

/-- The full name of the sample source profile. -/
def nameSource : String := "Source Person"

/-- A sample short name. -/
def shortA : String := "alice"

/-- An attribute name that is in neither modelled settings enumeration. -/
def settingOther : String := "not_a_setting"

/-- A setting name from the modelled `UserProfile.property_types`. -/
def settingEmojiset : String := "emojiset"

/-- Sample `create_user` arguments without a source profile. -/
def argsA : CreateUserArgs :=
  { email := emailAlice, password := some pwSecret, realm := sampleRealm,
    full_name := nameTarget, short_name := shortA }

/-- A sample source profile whose settings and full name differ from the
freshly built profile's. -/
def sampleSource : UserProfile :=
  { full_name := nameSource, settings := fun _ => SettingValue.i 42 }

/-- A sample target profile for `copy_user_settings`. -/
def sampleTarget : UserProfile :=
  { full_name := nameTarget, email := emailAlice }

/-- Sample `create_user` arguments carrying a source profile. -/
def argsB : CreateUserArgs :=
  { email := emailAlice, password := none, realm := sampleRealm,
    full_name := nameTarget, short_name := shortA,
    source_profile := some sampleSource }

/-- An in-bounds `getD` returns a member of the list. -/
theorem getD_mem_of_lt {α : Type} {l : List α} {i : Nat} {d : α}
    (h : i < l.length) : l.getD i d ∈ l := by
  induction l generalizing i with
  | nil => simp at h
  | cons a l ih =>
    cases i with
    | zero => simp
    | succ i =>
      simp only [List.getD_cons_succ]
      exact List.mem_cons_of_mem a (ih (by simpa using h))

/-- The settings map after one copy loop: names in the list carry the
source's value, all others are untouched. -/
theorem copySettingsFold_settings (source : UserProfile) (names : List String)
    (t : UserProfile) (n : String) :
    (copySettingsFold source names t).settings n =
      if n ∈ names then source.settings n else t.settings n := by
  induction names generalizing t with
  | nil => simp [copySettingsFold]
  | cons a names ih =>
    simp only [copySettingsFold, List.foldl_cons] at ih ⊢
    rw [ih]
    by_cases h1 : n ∈ names
    · simp [h1]
    · by_cases h2 : n = a
      · simp [h1, h2, UserProfile.setSetting]
      · simp [h1, h2, UserProfile.setSetting]

/-- `setattr` on a dynamic setting leaves every ordinary field alone. -/
theorem setSetting_frame (u : UserProfile) (n : String) (v : SettingValue) :
    (u.setSetting n v).frame = u.frame := rfl

/-- A copy loop over dynamic settings leaves every ordinary field alone. -/
theorem copySettingsFold_frame (source : UserProfile) (names : List String)
    (t : UserProfile) : (copySettingsFold source names t).frame = t.frame := by
  induction names generalizing t with
  | nil => rfl
  | cons a names ih =>
    simp only [copySettingsFold, List.foldl_cons] at ih ⊢
    rw [ih, setSetting_frame]

/-- A copy loop over dynamic settings leaves `full_name` alone. -/
theorem copySettingsFold_full_name (source : UserProfile) (names : List String)
    (t : UserProfile) : (copySettingsFold source names t).full_name = t.full_name := by
  induction names generalizing t with
  | nil => rfl
  | cons a names ih =>
    simp only [copySettingsFold, List.foldl_cons] at ih ⊢
    rw [ih]
    rfl

/-- The settings map after `copy_user_settings`: enumerated names carry the
source's value, all others the target's. -/
theorem copy_user_settings_settings (s t : UserProfile) (n : String) :
    (copy_user_settings s t).settings n =
      if n ∈ UserProfile.property_types ∨ n ∈ UserProfile.notification_setting_types
      then s.settings n else t.settings n := by
  show (copySettingsFold s UserProfile.notification_setting_types
      (copySettingsFold s UserProfile.property_types t)).settings n = _
  rw [copySettingsFold_settings, copySettingsFold_settings]
  by_cases h1 : n ∈ UserProfile.notification_setting_types
  · simp [h1]
  · by_cases h2 : n ∈ UserProfile.property_types
    · simp [h1, h2]
    · simp [h1, h2]

/-- `copy_user_settings` sets the target's `full_name` to the source's. -/
theorem copy_user_settings_full_name (s t : UserProfile) :
    (copy_user_settings s t).full_name = s.full_name := rfl

/-- `copy_user_settings` leaves every ordinary field of the target alone. -/
theorem copy_user_settings_frame (s t : UserProfile) :
    (copy_user_settings s t).frame = t.frame := by
  show (UserProfile.frame { copySettingsFold s UserProfile.notification_setting_types
      (copySettingsFold s UserProfile.property_types t) with full_name := s.full_name }) = _
  rw [show (UserProfile.frame { copySettingsFold s UserProfile.notification_setting_types
      (copySettingsFold s UserProfile.property_types t) with full_name := s.full_name }) =
      (copySettingsFold s UserProfile.notification_setting_types
      (copySettingsFold s UserProfile.property_types t)).frame from rfl]
  rw [copySettingsFold_frame, copySettingsFold_frame]

/-- C2: whenever `bot_type` is truthy (in Python's sense) or `active` is
false, the profile returned by `create_user_profile` has no usable password —
the password is replaced by `None` before hashing, whatever the `password`
argument was. -/
theorem create_user_profile_no_usable_password (now r1 r2 : Nat) (bytes : List Nat)
    (realm : Realm) (email : String) (password : Option String) (active : Bool)
    (bot_type : Option Int) (full_name short_name : String) (bot_owner : Option Nat)
    (is_mirror_dummy : Bool) (tos_version : Option String) (timezone : Option String)
    (tutorial_status : Option String) (enter_sends : Bool)
    (h : pyBool bot_type = true ∨ active = false) :
    (create_user_profile now r1 r2 bytes realm email password active bot_type
      full_name short_name bot_owner is_mirror_dummy tos_version timezone
      tutorial_status enter_sends).password = none := by
  rcases h with h | h <;>
    simp [create_user_profile, UserProfile.set_password, h]

/-- Witness for C2: a concrete bot account gets no usable password even
though a raw password was supplied. -/
theorem create_user_profile_no_usable_password_witness :
    (create_user_profile 0 0 0 bytes24 sampleRealm emailAlice (some pwSecret)
      true (some 1) nameTarget shortA none false none none none false).password = none :=
  create_user_profile_no_usable_password 0 0 0 bytes24 sampleRealm emailAlice
    (some pwSecret) true (some 1) nameTarget shortA none false none none none
    false (Or.inl (by decide))

/-- C8: `create_user_profile` returns an unsaved profile (no id, and its type
involves no `DB`) whose email is the normalized email argument, whose
`last_login` and `date_joined` both carry the time taken at the start of the
call, and whose `onboarding_steps` is the JSON serialization `"[]"` of the
empty list. -/
theorem create_user_profile_unsaved_fields (now r1 r2 : Nat) (bytes : List Nat)
    (realm : Realm) (email : String) (password : Option String) (active : Bool)
    (bot_type : Option Int) (full_name short_name : String) (bot_owner : Option Nat)
    (is_mirror_dummy : Bool) (tos_version : Option String) (timezone : Option String)
    (tutorial_status : Option String) (enter_sends : Bool) :
    (let u := create_user_profile now r1 r2 bytes realm email password active
      bot_type full_name short_name bot_owner is_mirror_dummy tos_version
      timezone tutorial_status enter_sends
     u.email = normalize_email email ∧ u.last_login = now ∧ u.date_joined = now ∧
       u.onboarding_steps = "[]" ∧ u.id = none) :=
  ⟨rfl, rfl, rfl, rfl, rfl⟩

/-- C9: the returned profile's `is_bot` flag is the Python truthiness of
`bot_type` (so `bot_type = 0` gives `is_bot = false`), and `bot_type = 0`
with an active account does not suppress the password: it is hashed from the
argument as supplied. -/
theorem create_user_profile_is_bot_truthiness (now r1 r2 : Nat) (bytes : List Nat)
    (realm : Realm) (email : String) (password : Option String) (active : Bool)
    (bot_type : Option Int) (full_name short_name : String) (bot_owner : Option Nat)
    (is_mirror_dummy : Bool) (tos_version : Option String) (timezone : Option String)
    (tutorial_status : Option String) (enter_sends : Bool) :
    ((create_user_profile now r1 r2 bytes realm email password active bot_type
        full_name short_name bot_owner is_mirror_dummy tos_version timezone
        tutorial_status enter_sends).is_bot = pyBool bot_type) ∧
    (bot_type = some 0 → active = true →
      (create_user_profile now r1 r2 bytes realm email password active bot_type
        full_name short_name bot_owner is_mirror_dummy tos_version timezone
        tutorial_status enter_sends).password = password.map hashPassword) := by
  constructor
  · rfl
  · intro h1 h2
    subst h1
    subst h2
    simp [create_user_profile, UserProfile.set_password, pyBool]

/-- Witness for C9: a concrete call with `bot_type = 0` on an active account
yields `is_bot = false` and a hashed (usable) password. -/
theorem create_user_profile_is_bot_truthiness_witness :
    ((create_user_profile 0 0 0 bytes24 sampleRealm emailAlice (some pwSecret)
        true (some 0) nameTarget shortA none false none none none false).is_bot = false) ∧
    ((create_user_profile 0 0 0 bytes24 sampleRealm emailAlice (some pwSecret)
        true (some 0) nameTarget shortA none false none none none false).password =
      some (hashPassword pwSecret)) := by
  have h := create_user_profile_is_bot_truthiness 0 0 0 bytes24 sampleRealm
    emailAlice (some pwSecret) true (some 0) nameTarget shortA none false none
    none none false
  exact ⟨h.1.trans (by decide), (h.2 rfl rfl).trans rfl⟩

/-- C10: without a source profile, `create_user` assigns
`default_all_public_streams` from its argument exactly when the argument is
not `None`; when it is `None` the field keeps the ORM default it got at
construction. -/
theorem create_user_default_all_public_streams (a : CreateUserArgs)
    (now r1 r2 : Nat) (bytes : List Nat) (db : DB)
    (hs : a.source_profile = none) :
    (a.default_all_public_streams = none →
      (create_user a now r1 r2 bytes db).1.default_all_public_streams =
        default_all_public_streams_orm_default) ∧
    (∀ b, a.default_all_public_streams = some b →
      (create_user a now r1 r2 bytes db).1.default_all_public_streams = b) := by
  constructor
  · intro hd
    show (create_user_prepared a now r1 r2 bytes).default_all_public_streams = _
    unfold create_user_prepared
    rw [hs, hd]
    rfl
  · intro b hd
    show (create_user_prepared a now r1 r2 bytes).default_all_public_streams = _
    unfold create_user_prepared
    rw [hs, hd]

/-- Witness for C10: with the sample arguments (whose
`default_all_public_streams` is `None`) the created profile carries the ORM
default. -/
theorem create_user_default_all_public_streams_witness :
    (create_user argsA 0 0 0 bytes24 DB.empty).1.default_all_public_streams =
      default_all_public_streams_orm_default :=
  (create_user_default_all_public_streams argsA 0 0 0 bytes24 DB.empty rfl).1 rfl

/-- C4: after `copy_user_settings`, the target's full name and every field
named in `UserProfile.property_types` or
`UserProfile.notification_setting_types` equal the source's corresponding
fields. -/
theorem copy_user_settings_copies (s t : UserProfile) (n : String)
    (h : n ∈ UserProfile.property_types ∨ n ∈ UserProfile.notification_setting_types) :
    (copy_user_settings s t).settings n = s.settings n ∧
    (copy_user_settings s t).full_name = s.full_name := by
  refine ⟨?_, copy_user_settings_full_name s t⟩
  rw [copy_user_settings_settings]
  simp [h]

/-- Witness for C4: a concrete enumerated setting and the full name are
copied from the sample source profile. -/
theorem copy_user_settings_copies_witness :
    (copy_user_settings sampleSource sampleTarget).settings settingEmojiset =
      sampleSource.settings settingEmojiset ∧
    (copy_user_settings sampleSource sampleTarget).full_name = sampleSource.full_name :=
  copy_user_settings_copies sampleSource sampleTarget settingEmojiset
    (Or.inl (by decide))

/-- C5: `copy_user_settings` touches only the target's `full_name` and the
fields enumerated in `UserProfile.property_types` and
`UserProfile.notification_setting_types`: every other ordinary field (the
`frame` projection) and every setting outside the two enumerations keeps the
target's value.  The Python function returns `None` and saves nothing; the
embedding reflects this in `copy_user_settings`'s type, which returns only
the updated target and involves no `DB`, and the source argument is not
modified. -/
theorem copy_user_settings_frame_only (s t : UserProfile) (n : String)
    (h1 : n ∉ UserProfile.property_types)
    (h2 : n ∉ UserProfile.notification_setting_types) :
    (copy_user_settings s t).frame = t.frame ∧
    (copy_user_settings s t).settings n = t.settings n ∧
    (copy_user_settings s t).full_name = s.full_name := by
  refine ⟨copy_user_settings_frame s t, ?_, copy_user_settings_full_name s t⟩
  rw [copy_user_settings_settings]
  simp [h1, h2]

/-- Witness for C5: a concrete non-enumerated attribute of the sample target
is untouched, as is its whole frame. -/
theorem copy_user_settings_frame_only_witness :
    (copy_user_settings sampleSource sampleTarget).frame = sampleTarget.frame ∧
    (copy_user_settings sampleSource sampleTarget).settings settingOther =
      sampleTarget.settings settingOther ∧
    (copy_user_settings sampleSource sampleTarget).full_name = sampleSource.full_name :=
  copy_user_settings_frame_only sampleSource sampleTarget settingOther
    (by decide) (by decide)

/-- With a source profile present, `create_user` prepares the profile it will
save by overlaying `copy_user_settings` on the profile prepared from the
other arguments alone. -/
theorem create_user_prepared_source (a : CreateUserArgs) (s : UserProfile)
    (now r1 r2 : Nat) (bytes : List Nat) (hs : a.source_profile = some s) :
    create_user_prepared a now r1 r2 bytes =
      copy_user_settings s
        (create_user_prepared { a with source_profile := none } now r1 r2 bytes) := by
  unfold create_user_prepared
  rw [hs]

/-- Without the source overlay, the prepared profile's email is the
normalized email argument. -/
theorem create_user_prepared_email (a : CreateUserArgs) (now r1 r2 : Nat)
    (bytes : List Nat) (hs : a.source_profile = none) :
    (create_user_prepared a now r1 r2 bytes).email = normalize_email a.email := by
  unfold create_user_prepared
  rw [hs]
  cases hd : a.default_all_public_streams <;> rfl

/-- C6 counterexample: the claim says the full name passed to `create_user`
is not overridden by the source profile, but on a concrete input the
returned profile carries the source profile's full name, not the argument. -/
theorem create_user_source_full_name_cex :
    (create_user argsB 0 0 0 bytes24 DB.empty).1.full_name = nameSource ∧
    (create_user argsB 0 0 0 bytes24 DB.empty).1.full_name ≠ argsB.full_name := by
  exact ⟨rfl, by decide⟩

/-- C6 (amended): with a non-`None` source profile the returned profile's
enumerated preference and notification settings come from the source profile
and its email is the normalized email argument (not overridden), but its
full name is overridden too: it is the source profile's full name, not the
`full_name` argument. -/
theorem create_user_source_overlay (a : CreateUserArgs) (s : UserProfile)
    (now r1 r2 : Nat) (bytes : List Nat) (db : DB)
    (hs : a.source_profile = some s) :
    ((create_user a now r1 r2 bytes db).1.email = normalize_email a.email) ∧
    ((create_user a now r1 r2 bytes db).1.full_name = s.full_name) ∧
    (∀ n, n ∈ UserProfile.property_types ∨ n ∈ UserProfile.notification_setting_types →
      (create_user a now r1 r2 bytes db).1.settings n = s.settings n) := by
  have hprep := create_user_prepared_source a s now r1 r2 bytes hs
  refine ⟨?_, ?_, ?_⟩
  · show (create_user_prepared a now r1 r2 bytes).email = _
    rw [hprep]
    have hframe := copy_user_settings_frame s
      (create_user_prepared { a with source_profile := none } now r1 r2 bytes)
    have hemail := congrArg FrameFields.email hframe
    exact hemail.trans (create_user_prepared_email
      { a with source_profile := none } now r1 r2 bytes rfl)
  · show (create_user_prepared a now r1 r2 bytes).full_name = _
    rw [hprep]
    exact copy_user_settings_full_name s _
  · intro n hn
    show (create_user_prepared a now r1 r2 bytes).settings n = _
    rw [hprep, copy_user_settings_settings]
    simp [hn]

/-- Witness for C6 (amended): on the sample arguments carrying a source
profile, the email is the normalized argument, the full name and a concrete
enumerated setting come from the source. -/
theorem create_user_source_overlay_witness :
    ((create_user argsB 0 0 0 bytes24 DB.empty).1.email = normalize_email argsB.email) ∧
    ((create_user argsB 0 0 0 bytes24 DB.empty).1.full_name = sampleSource.full_name) ∧
    (∀ n, n ∈ UserProfile.property_types ∨ n ∈ UserProfile.notification_setting_types →
      (create_user argsB 0 0 0 bytes24 DB.empty).1.settings n = sampleSource.settings n) :=
  create_user_source_overlay argsB sampleSource 0 0 0 bytes24 DB.empty rfl

/-- Sanity: with no failure injected, `create_user_run` is exactly
`create_user`. -/
theorem create_user_run_ok (a : CreateUserArgs) (now r1 r2 : Nat)
    (bytes : List Nat) (db : DB) :
    create_user_run false false a now r1 r2 bytes db =
      Except.ok (create_user a now r1 r2 bytes db) :=
  rfl

/-- C1: in any well-formed database, after `create_user` returns, the new
profile carries the freshly allocated id and there is exactly one personal
`Recipient` whose `type_id` is that id and exactly one `Subscription`
linking that profile id to that recipient. -/
theorem create_user_one_recipient_one_subscription (a : CreateUserArgs)
    (now r1 r2 : Nat) (bytes : List Nat) (db : DB) (hwf : db.wf) :
    ((create_user a now r1 r2 bytes db).1.id = some db.nextProfileId) ∧
    (((create_user a now r1 r2 bytes db).2.recipients.countP
        (fun r => r.type == Recipient.PERSONAL && r.type_id == db.nextProfileId)) = 1) ∧
    (((create_user a now r1 r2 bytes db).2.subscriptions.countP
        (fun s => s.user_profile_id == db.nextProfileId &&
          s.recipient_id == db.nextRecipientId)) = 1) := by
  obtain ⟨hr, hs⟩ := hwf
  refine ⟨rfl, ?_, ?_⟩
  · have hrec : (create_user a now r1 r2 bytes db).2.recipients =
        db.recipients ++
          [{ id := db.nextRecipientId, type_id := db.nextProfileId,
             type := Recipient.PERSONAL }] := rfl
    rw [hrec, List.countP_append]
    have h0 : db.recipients.countP
        (fun r => r.type == Recipient.PERSONAL && r.type_id == db.nextProfileId) = 0 := by
      rw [List.countP_eq_zero]
      intro r hmem
      simp only [Bool.and_eq_true, beq_iff_eq, not_and]
      intro ht
      have hlt := hr r hmem ht
      omega
    rw [h0]
    simp [List.countP_cons]
  · have hsub : (create_user a now r1 r2 bytes db).2.subscriptions =
        db.subscriptions ++
          [{ user_profile_id := db.nextProfileId,
             recipient_id := db.nextRecipientId }] := rfl
    rw [hsub, List.countP_append]
    have h0 : db.subscriptions.countP
        (fun s => s.user_profile_id == db.nextProfileId &&
          s.recipient_id == db.nextRecipientId) = 0 := by
      rw [List.countP_eq_zero]
      intro s hmem
      simp only [Bool.and_eq_true, beq_iff_eq, not_and]
      intro ht
      have hlt := hs s hmem
      omega
    rw [h0]
    simp [List.countP_cons]

/-- Witness for C1: creating the sample user in the empty database yields
exactly one personal recipient for the new id and one subscription to it. -/
theorem create_user_one_recipient_one_subscription_witness :
    ((create_user argsA 0 0 0 bytes24 DB.empty).1.id = some DB.empty.nextProfileId) ∧
    (((create_user argsA 0 0 0 bytes24 DB.empty).2.recipients.countP
        (fun r => r.type == Recipient.PERSONAL &&
          r.type_id == DB.empty.nextProfileId)) = 1) ∧
    (((create_user argsA 0 0 0 bytes24 DB.empty).2.subscriptions.countP
        (fun s => s.user_profile_id == DB.empty.nextProfileId &&
          s.recipient_id == DB.empty.nextRecipientId)) = 1) :=
  create_user_one_recipient_one_subscription argsA 0 0 0 bytes24 DB.empty
    ⟨by simp [DB.empty], by simp [DB.empty]⟩

/-- C3 counterexample: the claim says that if creating the `Recipient` or
`Subscription` fails, `create_user` leaves no persisted user profile behind;
but on a concrete input whose `Recipient.objects.create` raises, the
propagated state still contains the one freshly saved profile. -/
theorem create_user_atomicity_cex :
    (failedStateProfiles (create_user_run true false argsA 0 0 0 bytes24 DB.empty)).length = 1 := by
  rfl

/-- C3 (amended): the profile save and the `Recipient`/`Subscription`
creations are sequential persistence operations with no enclosing
transaction: when `Recipient.objects.create` fails, the exception propagates
and the already-saved profile row remains in the database, while the
recipient and subscription tables are unchanged. -/
theorem create_user_no_rollback (a : CreateUserArgs) (now r1 r2 : Nat)
    (bytes : List Nat) (db : DB) :
    create_user_run true false a now r1 r2 bytes db =
      Except.error { db with
        nextProfileId := db.nextProfileId + 1,
        profiles := db.profiles ++
          [(db.nextProfileId,
            { create_user_prepared a now r1 r2 bytes with id := some db.nextProfileId })] } :=
  rfl

/-- The base64 character stream of `n` bytes has `(n + 2) / 3 * 4`
characters. -/
theorem b64encodeChars_length (alpha : List Char) :
    ∀ bytes : List Nat, (b64encodeChars alpha bytes).length = (bytes.length + 2) / 3 * 4
  | [] => by simp [b64encodeChars]
  | [a] => by simp [b64encodeChars]
  | [a, b] => by simp [b64encodeChars]
  | a :: b :: c :: rest => by
      have ih := b64encodeChars_length alpha rest
      simp only [b64encodeChars, List.length_cons, ih]
      omega

/-- Over a 64-character alphabet, every character emitted for a byte list of
length divisible by 3 (all bytes below 256) belongs to the alphabet. -/
theorem b64encodeChars_mem (alpha : List Char) (h64 : alpha.length = 64) :
    ∀ bytes : List Nat, bytes.length % 3 = 0 → (∀ x ∈ bytes, x < 256) →
      ∀ ch ∈ b64encodeChars alpha bytes, ch ∈ alpha
  | [] => by
      intro _ _ ch hch
      simp [b64encodeChars] at hch
  | [a] => by
      intro hlen _
      simp only [List.length_singleton] at hlen
      omega
  | [a, b] => by
      intro hlen _
      simp only [List.length_cons, List.length_nil] at hlen
      omega
  | a :: b :: c :: rest => by
      intro hlen hlt ch hch
      have ha : a < 256 := hlt a (by simp)
      have hb : b < 256 := hlt b (by simp)
      have hc : c < 256 := hlt c (by simp)
      simp only [b64encodeChars, List.mem_cons] at hch
      rcases hch with h | h | h | h | h
      · subst h; exact getD_mem_of_lt (by rw [h64]; omega)
      · subst h; exact getD_mem_of_lt (by rw [h64]; omega)
      · subst h; exact getD_mem_of_lt (by rw [h64]; omega)
      · subst h; exact getD_mem_of_lt (by rw [h64]; omega)
      · exact b64encodeChars_mem alpha h64 rest
          (by simp only [List.length_cons] at hlen; omega)
          (fun x hx => hlt x (by simp [hx])) ch h

/-- Every character of the fixed 62-character prefix of the base64 alphabet
is an ASCII letter or digit. -/
theorem sixtytwo_subset_choices :
    ∀ ch ∈ b64upper ++ b64lower ++ b64digits, ch ∈ ascii_letters ++ ascii_digits := by
  intro ch h
  simp only [ascii_letters, ascii_digits, List.mem_append] at h ⊢
  tauto

/-- C7: every string returned by `random_api_key` — whatever the random
bytes — is the base64 encoding of the 24 random bytes under a two-character
alternate alphabet drawn from ASCII letters and digits, hence a string of
exactly 32 characters all of which are ASCII letters or digits (and in
particular a valid base64 string over the chosen alphabet, with no
padding). -/
theorem random_api_key_valid (r1 r2 : Nat) (bytes : List Nat)
    (hlen : bytes.length = 24) (hbytes : ∀ x ∈ bytes, x < 256) :
    (random_api_key r1 r2 bytes).length = 32 ∧
    ∀ ch ∈ (random_api_key r1 r2 bytes).data, ch ∈ ascii_letters ++ ascii_digits := by
  constructor
  · show (b64encodeChars (b64alphabet
        ((ascii_letters ++ ascii_digits).getD (r1 % 62) 'a')
        ((ascii_letters ++ ascii_digits).getD (r2 % 62) 'a')) bytes).length = 32
    rw [b64encodeChars_length, hlen]
  · intro ch hch
    have hch' : ch ∈ b64encodeChars (b64alphabet
        ((ascii_letters ++ ascii_digits).getD (r1 % 62) 'a')
        ((ascii_letters ++ ascii_digits).getD (r2 % 62) 'a')) bytes := hch
    have halpha := b64encodeChars_mem (b64alphabet
        ((ascii_letters ++ ascii_digits).getD (r1 % 62) 'a')
        ((ascii_letters ++ ascii_digits).getD (r2 % 62) 'a'))
        (by rfl) bytes (by rw [hlen]) hbytes ch hch'
    have hsplit : ch ∈ b64upper ++ b64lower ++ b64digits ∨
        ch = (ascii_letters ++ ascii_digits).getD (r1 % 62) 'a' ∨
        ch = (ascii_letters ++ ascii_digits).getD (r2 % 62) 'a' := by
      simpa [b64alphabet, List.mem_append, List.mem_cons, or_assoc] using halpha
    have hgd : ∀ r : Nat, (ascii_letters ++ ascii_digits).getD (r % 62) 'a' ∈
        ascii_letters ++ ascii_digits := by
      intro r
      exact getD_mem_of_lt
        (by rw [show (ascii_letters ++ ascii_digits).length = 62 from rfl]; omega)
    rcases hsplit with h | h | h
    · exact sixtytwo_subset_choices ch h
    · rw [h]; exact hgd r1
    · rw [h]; exact hgd r2

/-- Witness for C7: a concrete 24-byte input yields a 32-character
alphanumeric key. -/
theorem random_api_key_valid_witness :
    (random_api_key 0 0 bytes24).length = 32 ∧
    ∀ ch ∈ (random_api_key 0 0 bytes24).data, ch ∈ ascii_letters ++ ascii_digits :=
  random_api_key_valid 0 0 bytes24 (by decide) (by decide)

end CreateUser
